import Mathlib

/- Shallow embedding of the Agile project management scripts.

   The repository holds two variants:
   - a Sprint variant (classes Task and Sprint), embedded below as
     Agile.Task and the Agile.Sprint namespace; the first source file has
     the same Task without a due date and with identical status logic, so
     one embedding covers both;
   - a persistent variant (a second Task class with an integer id and a
     ProjectManager with a JSON backing file), embedded in the
     Agile.Persistent namespace.

   Timestamps are modelled as natural numbers (the current time is passed
   explicitly where the code calls datetime.now), ISO timestamps of the
   persistent variant as strings, printed messages as small result
   inductives, and the backing file as a write counter on the manager
   state plus an explicit file-state argument at load time. -/

namespace Agile

/-- The fixed status enumeration, STATUSES in the source. -/
def STATUSES : List String := ["To Do", "In Progress", "Done"]

/-- Task of the Sprint variant: title, description, optional assignee,
    status string, creation time, optional due date. -/
structure Task where
  title : String
  description : String
  assignee : Option String
  status : String
  created_at : Nat
  due_date : Option Nat
deriving DecidableEq

/-- Task constructor: status starts at To Do and created_at is the
    current time. -/
def Task.create (now : Nat) (title description : String)
    (assignee : Option String := none) (due_date : Option Nat := none) : Task :=
  { title := title, description := description, assignee := assignee,
    status := "To Do", created_at := now, due_date := due_date }

/-- Observable outcome of update_status: either the status was replaced,
    or the argument was rejected with an invalid-status message. -/
inductive StatusUpdateResult where
  | changed
  | rejected
deriving DecidableEq

/-- Task.update_status: replace the status when the argument is one of
    the three fixed statuses, otherwise leave the task unchanged and
    report an invalid-status error. -/
def Task.update_status (t : Task) (new_status : String) :
    Task × StatusUpdateResult :=
  if new_status ∈ STATUSES then ({ t with status := new_status }, .changed)
  else (t, .rejected)

/-- Task.is_overdue with the current time passed explicitly: the truth
    value of the Python expression
    due_date and now > due_date and status != Done. -/
def Task.is_overdue (t : Task) (now : Nat) : Bool :=
  match t.due_date with
  | none => false
  | some d => decide (now > d) && decide (t.status ≠ "Done")

/-- One update_status step preserves membership of the status in the
    fixed enumeration. -/
theorem Task.update_status_preserves_mem (t : Task) (s : String)
    (ht : t.status ∈ STATUSES) : ((t.update_status s).1).status ∈ STATUSES := by
  by_cases h : s ∈ STATUSES
  · simp [Task.update_status, h]
  · simpa [Task.update_status, h] using ht

/-- Claim C1: a Task constructed by create starts in To Do; update_status
    with an argument in the three-element set replaces the status with it;
    update_status with any other argument leaves the task unchanged and
    reports an error; hence after any sequence of update_status calls the
    status is still in the set. -/
theorem C1_status_invariant :
    (∀ (now : Nat) (title description : String) (assignee : Option String)
        (due_date : Option Nat),
      (Task.create now title description assignee due_date).status = "To Do")
    ∧ (∀ (t : Task) (s : String), s ∈ STATUSES →
        ((t.update_status s).1).status = s)
    ∧ (∀ (t : Task) (s : String), s ∉ STATUSES →
        (t.update_status s).1 = t ∧ (t.update_status s).2 = .rejected)
    ∧ (∀ (t : Task), t.status ∈ STATUSES → ∀ updates : List String,
        ((updates.foldl (fun u s => (u.update_status s).1) t)).status ∈ STATUSES)
    ∧ (∀ (now : Nat) (title description : String) (assignee : Option String)
        (due_date : Option Nat) (updates : List String),
        ((updates.foldl (fun u s => (u.update_status s).1)
          (Task.create now title description assignee due_date))).status
          ∈ STATUSES) := by
  have hfold : ∀ (updates : List String) (t : Task), t.status ∈ STATUSES →
      ((updates.foldl (fun u s => (u.update_status s).1) t)).status ∈ STATUSES := by
    intro updates
    induction updates with
    | nil => intro t ht; simpa using ht
    | cons s rest ih =>
      intro t ht
      simpa using ih _ (Task.update_status_preserves_mem t s ht)
  refine ⟨fun _ _ _ _ _ => rfl, ?_, ?_, fun t ht updates => hfold updates t ht, ?_⟩
  · intro t s hs
    simp [Task.update_status, hs]
  · intro t s hs
    simp [Task.update_status, hs]
  · intro now title description assignee due_date updates
    exact hfold updates _ (by simp [Task.create, STATUSES])

/-- Witness for C1 at concrete inputs: a task created now and pushed
    through valid and invalid updates keeps a status in the set, and an
    invalid update is rejected without a change. -/
theorem C1_status_invariant_witness :
    ((["In Progress", "Blocked", "Done"].foldl
        (fun u s => (u.update_status s).1)
        (Task.create 0 "Setup" "CI" none none)).status ∈ STATUSES)
    ∧ ((Task.create 0 "Setup" "CI" none none).update_status "Blocked").1
        = Task.create 0 "Setup" "CI" none none := by
  constructor
  · exact C1_status_invariant.2.2.2.2 0 "Setup" "CI" none none
      ["In Progress", "Blocked", "Done"]
  · exact (C1_status_invariant.2.2.1 (Task.create 0 "Setup" "CI" none none)
      "Blocked" (by decide)).1

/-- Claim C4: is_overdue is true iff a due date is set, the due date is
    strictly before the current time, and the status is not Done; in
    particular it is false when due_date is unset, when due_date is not in
    the past, or when the status is Done. (The embedding is a pure
    function of the task and the current time, so the call mutates no
    state.) -/
theorem C4_is_overdue (t : Task) (now : Nat) :
    (t.is_overdue now = true ↔
      ∃ d, t.due_date = some d ∧ d < now ∧ t.status ≠ "Done")
    ∧ (t.due_date = none → t.is_overdue now = false)
    ∧ (∀ d, t.due_date = some d → ¬ d < now → t.is_overdue now = false)
    ∧ (t.status = "Done" → t.is_overdue now = false) := by
  refine ⟨?_, ?_, ?_, ?_⟩
  · cases hd : t.due_date with
    | none => simp [Task.is_overdue, hd]
    | some d =>
      simp only [Task.is_overdue, hd, Bool.and_eq_true, decide_eq_true_eq,
        Option.some.injEq]
      constructor
      · rintro ⟨h1, h2⟩; exact ⟨d, rfl, h1, h2⟩
      · rintro ⟨e, he, h1, h2⟩; cases he; exact ⟨h1, h2⟩
  · intro hd; simp [Task.is_overdue, hd]
  · intro d hd hlt; simp [Task.is_overdue, hd, Nat.not_lt.mp hlt, Nat.not_lt]
  · intro hs
    cases hd : t.due_date with
    | none => simp [Task.is_overdue, hd]
    | some d => simp [Task.is_overdue, hd, hs]

/-- Witness for C4 at concrete inputs: a task due at time 5 with status
    To Do is overdue at time 9, and the same task marked Done is not. -/
theorem C4_is_overdue_witness :
    ((Task.create 0 "Setup" "CI" none (some 5)).is_overdue 9 = true)
    ∧ (((Task.create 0 "Setup" "CI" none (some 5)).update_status "Done").1.is_overdue 9
        = false) := by
  constructor
  · exact (C4_is_overdue (Task.create 0 "Setup" "CI" none (some 5)) 9).1.mpr
      ⟨5, rfl, by decide, by decide⟩
  · exact (C4_is_overdue
      ((Task.create 0 "Setup" "CI" none (some 5)).update_status "Done").1 9).2.2.2
      (by decide)

/-- Python str.lower, modelled character-by-character (the ASCII case
    mapping, which is what the titles in this repository exercise). -/
def py_lower (s : String) : String := String.mk (s.data.map Char.toLower)

/-- Sprint.get_task_by_title: scan the task list in order and return the
    first task whose lowercased title equals the lowercased argument. -/
def Sprint.get_task_by_title (title : String) : List Task → Option Task
  | [] => none
  | t :: ts =>
    if py_lower t.title = py_lower title then some t
    else Sprint.get_task_by_title title ts

/-- Python list.remove on the Sprint task list: drop the first element
    equal to the argument. (The source only calls it with an element just
    found in the list, so the element is always present; Task objects
    compare by identity in Python, which structural equality refines
    soundly here because the removed element was itself taken from the
    list.) -/
def list_remove (x : Task) : List Task → List Task
  | [] => []
  | t :: ts => if t = x then ts else t :: list_remove x ts

/-- Observable outcome of Sprint.remove_task. -/
inductive RemoveResult where
  | removed
  | notFound
deriving DecidableEq

/-- Sprint.remove_task: look the title up; when found, remove that task
    from the list and report success, otherwise report not found. -/
def Sprint.remove_task (title : String) (tasks : List Task) :
    List Task × RemoveResult :=
  match Sprint.get_task_by_title title tasks with
  | some t => (list_remove t tasks, .removed)
  | none => (tasks, .notFound)

/-- The status-count dictionary of sprint_status, with one field per key
    of the literal dict, so all three keys are present by construction. -/
structure StatusCount where
  todo : Nat
  in_progress : Nat
  done : Nat
deriving DecidableEq

/-- One dictionary increment of sprint_status: bump the entry for the
    given status, or fail (a KeyError in Python) when the status is not
    one of the three keys. -/
def StatusCount.incr (sc : StatusCount) (s : String) : Option StatusCount :=
  if s = "To Do" then some { sc with todo := sc.todo + 1 }
  else if s = "In Progress" then some { sc with in_progress := sc.in_progress + 1 }
  else if s = "Done" then some { sc with done := sc.done + 1 }
  else none

/-- Sprint.sprint_status: start from the all-zero three-key dict and bump
    the entry of each task status in order. -/
def Sprint.sprint_status (tasks : List Task) : Option StatusCount :=
  tasks.foldlM (fun sc t => sc.incr t.status) ⟨0, 0, 0⟩

/-- Number of tasks in the list whose status is the given string. -/
def count_status (s : String) (tasks : List Task) : Nat :=
  (tasks.filter (fun t => t.status == s)).length

/-- Sprint.get_overdue_tasks: the list comprehension keeping, in order,
    the tasks whose is_overdue holds at the given time. -/
def Sprint.get_overdue_tasks (now : Nat) : List Task → List Task
  | [] => []
  | t :: ts =>
    if t.is_overdue now then t :: Sprint.get_overdue_tasks now ts
    else Sprint.get_overdue_tasks now ts

/-- get_overdue_tasks agrees with List.filter over is_overdue. -/
theorem Sprint.get_overdue_tasks_eq_filter (now : Nat) (tasks : List Task) :
    Sprint.get_overdue_tasks now tasks = tasks.filter (fun t => t.is_overdue now) := by
  induction tasks with
  | nil => rfl
  | cons t ts ih =>
    by_cases h : t.is_overdue now
    · simp [Sprint.get_overdue_tasks, List.filter, h, ih]
    · simp [Sprint.get_overdue_tasks, List.filter, h, ih]

/-- Claim C9: get_overdue_tasks returns exactly the subsequence of tasks
    on which is_overdue holds, in the original order (it equals the
    filter of the task list, is a sublist of it, and contains exactly the
    overdue members); the task list itself is not modified, the embedding
    being a pure function of it. -/
theorem C9_get_overdue_tasks (now : Nat) (tasks : List Task) :
    Sprint.get_overdue_tasks now tasks = tasks.filter (fun t => t.is_overdue now)
    ∧ (Sprint.get_overdue_tasks now tasks).Sublist tasks
    ∧ ∀ t : Task, t ∈ Sprint.get_overdue_tasks now tasks ↔
        t ∈ tasks ∧ t.is_overdue now = true := by
  refine ⟨Sprint.get_overdue_tasks_eq_filter now tasks, ?_, ?_⟩
  · rw [Sprint.get_overdue_tasks_eq_filter]
    exact List.filter_sublist tasks
  · intro t
    rw [Sprint.get_overdue_tasks_eq_filter]
    simp [List.mem_filter]

/-- Running the sprint_status fold from any starting dictionary adds the
    per-status counts of the list, as long as every status hits one of
    the three keys. -/
theorem sprint_status_foldlM (tasks : List Task) :
    ∀ sc : StatusCount, (∀ t ∈ tasks, t.status ∈ STATUSES) →
    List.foldlM (fun sc t => StatusCount.incr sc t.status) sc tasks =
      some { todo := sc.todo + count_status "To Do" tasks,
             in_progress := sc.in_progress + count_status "In Progress" tasks,
             done := sc.done + count_status "Done" tasks } := by
  induction tasks with
  | nil =>
    intro sc _
    simp [count_status]
  | cons t ts ih =>
    intro sc h
    have ht := h t (List.mem_cons_self t ts)
    have hrest : ∀ u ∈ ts, u.status ∈ STATUSES := fun u hu =>
      h u (List.mem_cons_of_mem t hu)
    simp only [STATUSES, List.mem_cons, List.not_mem_nil, or_false] at ht
    rcases ht with h1 | h1 | h1
    · have hstep : StatusCount.incr sc t.status
          = some { sc with todo := sc.todo + 1 } := by
        simp [StatusCount.incr, h1]
      rw [List.foldlM_cons, hstep]
      simp only [Option.bind_eq_bind, Option.some_bind]
      rw [ih _ hrest]
      simp [count_status, List.filter_cons, h1, StatusCount.mk.injEq]
      omega
    · have hstep : StatusCount.incr sc t.status
          = some { sc with in_progress := sc.in_progress + 1 } := by
        simp [StatusCount.incr, h1]
      rw [List.foldlM_cons, hstep]
      simp only [Option.bind_eq_bind, Option.some_bind]
      rw [ih _ hrest]
      simp [count_status, List.filter_cons, h1, StatusCount.mk.injEq]
      omega
    · have hstep : StatusCount.incr sc t.status
          = some { sc with done := sc.done + 1 } := by
        simp [StatusCount.incr, h1]
      rw [List.foldlM_cons, hstep]
      simp only [Option.bind_eq_bind, Option.some_bind]
      rw [ih _ hrest]
      simp [count_status, List.filter_cons, h1, StatusCount.mk.injEq]
      omega

/-- Claim C6: sprint_status succeeds on any task list whose statuses are
    in the fixed set, returning the three-key dictionary (each key
    present even at count zero, by the shape of StatusCount) that maps
    each status to the number of tasks in it, and the three counts sum to
    the length of the task list. -/
theorem C6_sprint_status (tasks : List Task)
    (h : ∀ t ∈ tasks, t.status ∈ STATUSES) :
    Sprint.sprint_status tasks =
      some { todo := count_status "To Do" tasks,
             in_progress := count_status "In Progress" tasks,
             done := count_status "Done" tasks }
    ∧ count_status "To Do" tasks + count_status "In Progress" tasks
        + count_status "Done" tasks = tasks.length := by
  constructor
  · simpa [Sprint.sprint_status] using
      sprint_status_foldlM tasks ⟨0, 0, 0⟩ h
  · induction tasks with
    | nil => simp [count_status]
    | cons t ts ih =>
      have ht := h t (List.mem_cons_self t ts)
      have hrest : ∀ u ∈ ts, u.status ∈ STATUSES := fun u hu =>
        h u (List.mem_cons_of_mem t hu)
      have ihr := ih hrest
      simp only [STATUSES, List.mem_cons, List.not_mem_nil, or_false] at ht
      rcases ht with h1 | h1 | h1 <;>
        simp [count_status, List.filter_cons, h1] at ihr ⊢ <;> omega

/-- Witness for C6 at a concrete two-task list: one task To Do and one
    Done give counts one, zero, one, summing to the list length. -/
theorem C6_sprint_status_witness :
    Sprint.sprint_status
      [Task.create 0 "A" "a" none none,
       ((Task.create 1 "B" "b" none none).update_status "Done").1] =
      some { todo := 1, in_progress := 0, done := 1 }
    ∧ (1 : Nat) + 0 + 1 = 2 := by
  have h := C6_sprint_status
    [Task.create 0 "A" "a" none none,
     ((Task.create 1 "B" "b" none none).update_status "Done").1]
    (by decide)
  exact ⟨h.1.trans (by decide), by decide⟩

/-- A task returned by get_task_by_title matches the searched title
    case-insensitively. -/
theorem get_task_by_title_matches (title : String) (tasks : List Task) (t : Task)
    (h : Sprint.get_task_by_title title tasks = some t) :
    py_lower t.title = py_lower title := by
  induction tasks with
  | nil => simp [Sprint.get_task_by_title] at h
  | cons u ts ih =>
    by_cases hu : py_lower u.title = py_lower title
    · simp only [Sprint.get_task_by_title, if_pos hu, Option.some.injEq] at h
      exact h ▸ hu
    · simp only [Sprint.get_task_by_title, if_neg hu] at h
      exact ih h

/-- get_task_by_title returns none exactly when no task in the list
    matches the title case-insensitively. -/
theorem get_task_by_title_none_iff (title : String) (tasks : List Task) :
    Sprint.get_task_by_title title tasks = none ↔
      ∀ t ∈ tasks, py_lower t.title ≠ py_lower title := by
  induction tasks with
  | nil => simp [Sprint.get_task_by_title]
  | cons u ts ih =>
    by_cases hu : py_lower u.title = py_lower title
    · simp [Sprint.get_task_by_title, hu]
    · simp [Sprint.get_task_by_title, hu, ih, List.forall_mem_cons]

/-- Spec-side characterization of removal: drop the first task in the
    list whose title matches case-insensitively, keeping the rest. -/
def erase_first_match (title : String) : List Task → List Task
  | [] => []
  | t :: ts =>
    if py_lower t.title = py_lower title then ts
    else t :: erase_first_match title ts

/-- Removing the task found by get_task_by_title removes exactly the
    first case-insensitive title match. -/
theorem list_remove_of_found (title : String) (tasks : List Task) (t : Task)
    (h : Sprint.get_task_by_title title tasks = some t) :
    list_remove t tasks = erase_first_match title tasks := by
  induction tasks with
  | nil => simp [Sprint.get_task_by_title] at h
  | cons u ts ih =>
    by_cases hu : py_lower u.title = py_lower title
    · simp only [Sprint.get_task_by_title, if_pos hu, Option.some.injEq] at h
      subst h
      simp [list_remove, erase_first_match, hu]
    · simp only [Sprint.get_task_by_title, if_neg hu] at h
      have htm := get_task_by_title_matches title ts t h
      have hne : u ≠ t := fun he => hu (he ▸ htm)
      simp [list_remove, erase_first_match, hu, hne, ih h]

/-- Number of tasks in the list matching the title case-insensitively. -/
def count_title_matches (title : String) (tasks : List Task) : Nat :=
  (tasks.filter (fun t => py_lower t.title == py_lower title)).length

/-- erase_first_match drops exactly one match when one exists. -/
theorem count_erase_first_match (title : String) (tasks : List Task) :
    count_title_matches title (erase_first_match title tasks) =
      count_title_matches title tasks - 1 := by
  induction tasks with
  | nil => simp [erase_first_match, count_title_matches]
  | cons u ts ih =>
    by_cases hu : py_lower u.title = py_lower title
    · simp [erase_first_match, count_title_matches, hu, List.filter_cons]
    · simp only [erase_first_match, if_neg hu, count_title_matches,
        List.filter_cons] at ih ⊢
      simp only [beq_iff_eq, hu, if_false, ite_false]
      simpa using ih

/-- get_task_by_title finds nothing exactly when the match count is
    zero. -/
theorem get_none_iff_count_zero (title : String) (tasks : List Task) :
    Sprint.get_task_by_title title tasks = none ↔
      count_title_matches title tasks = 0 := by
  rw [get_task_by_title_none_iff]
  simp [count_title_matches, List.length_eq_zero, List.filter_eq_nil_iff]

/-- Claim C7: remove_task removes the first case-insensitive title match
    and reports success; when no task matches it reports not found and
    leaves the list unchanged; and when the title occurs exactly once,
    looking it up after a successful removal returns none. -/
theorem C7_remove_task (title : String) (tasks : List Task) :
    (Sprint.get_task_by_title title tasks = none →
      Sprint.remove_task title tasks = (tasks, RemoveResult.notFound))
    ∧ (∀ t, Sprint.get_task_by_title title tasks = some t →
      Sprint.remove_task title tasks =
        (erase_first_match title tasks, RemoveResult.removed))
    ∧ (count_title_matches title tasks = 1 →
      (Sprint.remove_task title tasks).2 = RemoveResult.removed
      ∧ Sprint.get_task_by_title title (Sprint.remove_task title tasks).1 = none) := by
  have hfound : ∀ t, Sprint.get_task_by_title title tasks = some t →
      Sprint.remove_task title tasks =
        (erase_first_match title tasks, RemoveResult.removed) := by
    intro t ht
    simp [Sprint.remove_task, ht, list_remove_of_found title tasks t ht]
  refine ⟨?_, hfound, ?_⟩
  · intro h
    simp [Sprint.remove_task, h]
  · intro hc
    have hne : Sprint.get_task_by_title title tasks ≠ none := by
      intro h0
      rw [get_none_iff_count_zero] at h0
      omega
    obtain ⟨t, ht⟩ := Option.ne_none_iff_exists'.mp hne
    rw [hfound t ht]
    refine ⟨rfl, ?_⟩
    rw [get_none_iff_count_zero, count_erase_first_match, hc]

/-- Witness for C7 at concrete inputs: removing the unique title Alpha
    (looked up in a different case) succeeds and a later lookup returns
    none, while removing an absent title leaves the list unchanged. -/
theorem C7_remove_task_witness :
    ((Sprint.remove_task "alpha" [Task.create 0 "Alpha" "x" none none]).2
        = RemoveResult.removed
      ∧ Sprint.get_task_by_title "alpha"
          (Sprint.remove_task "alpha" [Task.create 0 "Alpha" "x" none none]).1
        = none)
    ∧ Sprint.remove_task "beta" [Task.create 0 "Alpha" "x" none none]
        = ([Task.create 0 "Alpha" "x" none none], RemoveResult.notFound) := by
  constructor
  · exact (C7_remove_task "alpha" [Task.create 0 "Alpha" "x" none none]).2.2
      (by decide)
  · exact (C7_remove_task "beta" [Task.create 0 "Alpha" "x" none none]).1
      (by decide)

/-- Conversion of a nonempty all-digit character list to a number, the
    digit-consuming core of the Python int builtin; any non-digit
    character makes the whole conversion fail. -/
def digits_to_nat_aux (acc : Nat) : List Char → Option Nat
  | [] => some acc
  | c :: cs =>
    if c.isDigit then digits_to_nat_aux (acc * 10 + (c.toNat - 48)) cs
    else none

/-- Digit-list conversion: fails on the empty list and on any non-digit
    character. -/
def digits_to_nat : List Char → Option Nat
  | [] => none
  | c :: cs =>
    if c.isDigit then digits_to_nat_aux (c.toNat - 48) cs
    else none

/-- Python int applied to a string: an optional sign followed by at least
    one digit converts; anything else raises ValueError, modelled as
    none. -/
def py_int (s : String) : Option Int :=
  match s.data with
  | [] => none
  | c :: cs =>
    if c = '-' then (digits_to_nat cs).map (fun n => -(n : Int))
    else if c = '+' then (digits_to_nat cs).map (fun n => (n : Int))
    else (digits_to_nat (c :: cs)).map (fun n => (n : Int))

namespace Persistent

/-- The persisted record of a task: the dictionary produced by to_dict
    and stored under the tasks key of the JSON file. -/
structure TaskRecord where
  id : Int
  title : String
  description : String
  status : String
  created_at : String
deriving DecidableEq

/-- Task of the persistent variant: integer id, title, description,
    status string, and the creation timestamp kept as ISO-8601 text. -/
structure Task where
  id : Int
  title : String
  description : String
  status : String
  created_at : String
deriving DecidableEq

/-- generate_id: the millisecond timestamp of the current time, passed in
    explicitly. -/
def Task.generate_id (now_ms : Int) : Int := now_ms

/-- The persistent Task constructor: id is the given one or a fresh
    timestamp id, status defaults to To Do and is stored as given with no
    validation, created_at is the current time as ISO text. -/
def Task.init (now_ms : Int) (now_iso : String) (title description : String)
    (status : String := "To Do") (task_id : Option Int := none) : Task :=
  { id := match task_id with
          | some i => i
          | none => Task.generate_id now_ms,
    title := title, description := description, status := status,
    created_at := now_iso }

/-- Task.to_dict: the record with the same five fields. -/
def Task.to_dict (t : Task) : TaskRecord :=
  { id := t.id, title := t.title, description := t.description,
    status := t.status, created_at := t.created_at }

/-- Task.from_dict: construct through the constructor with the stored
    title, description, status and id, then overwrite created_at with the
    stored text, which stays authoritative. -/
def Task.from_dict (now_ms : Int) (now_iso : String) (d : TaskRecord) : Task :=
  let task := Task.init now_ms now_iso d.title d.description d.status (some d.id)
  { task with created_at := d.created_at }

/-- ProjectManager state: the in-memory task list plus a counter of
    completed writes of the backing file (each save_data call rewrites
    the whole file once). -/
structure ProjectManager where
  tasks : List Task
  file_writes : Nat
deriving DecidableEq

/-- ProjectManager._save_data: rewrite the whole backing file from the
    current task list; the model records that one write happened. -/
def ProjectManager.save_data (pm : ProjectManager) : ProjectManager :=
  { pm with file_writes := pm.file_writes + 1 }

/-- The records the backing file holds right after a save: the task list
    encoded by to_dict. -/
def ProjectManager.file_records (pm : ProjectManager) : List TaskRecord :=
  pm.tasks.map Task.to_dict

/-- ProjectManager.get_task_by_id: coerce the textual id with int inside
    try/except ValueError, then return the first task with that id; a
    failed coercion returns none. -/
def ProjectManager.get_task_by_id (pm : ProjectManager) (task_id : String) :
    Option Task :=
  match py_int task_id with
  | none => none
  | some n => pm.tasks.find? (fun t => t.id == n)

/-- Set the status of the first task with the given id, the effect of
    mutating the task object found by get_task_by_id. -/
def set_status_first (n : Int) (new_status : String) : List Task → List Task
  | [] => []
  | t :: ts =>
    if t.id = n then { t with status := new_status } :: ts
    else t :: set_status_first n new_status ts

/-- Messages printed by update_task_status. -/
inductive UpdateOutcome where
  | updated
  | noChange
  | invalidStatus
  | notFound
deriving DecidableEq

/-- ProjectManager.update_task_status: look the id up; on a valid status
    different from the current one, mutate the found task and save; on an
    equal status report no change; on an invalid status or a missing id
    report the error; the state is untouched in all but the first case. -/
def ProjectManager.update_task_status (pm : ProjectManager)
    (task_id new_status : String) : ProjectManager × UpdateOutcome :=
  match pm.get_task_by_id task_id with
  | some task =>
    if new_status ∈ STATUSES then
      if task.status ≠ new_status then
        (ProjectManager.save_data
          { pm with tasks := set_status_first task.id new_status pm.tasks },
         .updated)
      else (pm, .noChange)
    else (pm, .invalidStatus)
  | none => (pm, .notFound)

/-- The state of the backing file when a ProjectManager is constructed:
    absent, present but not decodable as JSON, or decodable with an
    optional tasks field. -/
inductive FileState where
  | absent
  | malformed
  | valid (tasks_field : Option (List TaskRecord))
deriving DecidableEq

/-- Messages printed by _load_data. -/
inductive LoadOutcome where
  | loaded
  | warnedMalformed
  | startedFresh
deriving DecidableEq

/-- ProjectManager._load_data, run by the constructor on the initially
    empty task list: decode every stored record on a valid file (the
    tasks field defaulting to the empty list), reset to empty with a
    warning on a malformed file, and keep the empty list on a missing
    file. -/
def ProjectManager.load_data (now_ms : Int) (now_iso : String)
    (file : FileState) : List Task × LoadOutcome :=
  match file with
  | .valid tf => ((tf.getD []).map (Task.from_dict now_ms now_iso), .loaded)
  | .malformed => ([], .warnedMalformed)
  | .absent => ([], .startedFresh)

/-- The ProjectManager constructor: start from the empty task list, then
    load from the backing file; no save happens during construction. -/
def ProjectManager.init (now_ms : Int) (now_iso : String) (file : FileState) :
    ProjectManager × LoadOutcome :=
  let r := ProjectManager.load_data now_ms now_iso file
  ({ tasks := r.1, file_writes := 0 }, r.2)

/-- Claim C2: decoding the encoded record of a persistent task restores
    it exactly; in particular created_at comes back as the stored text,
    whatever the current time is during decoding. -/
theorem C2_round_trip (now_ms : Int) (now_iso : String) (t : Task) :
    Task.from_dict now_ms now_iso (Task.to_dict t) = t := by
  cases t
  rfl

/-- Claim C10: neither from_dict nor the persistent Task constructor with
    an explicit status argument validates the status: the status string,
    of any value, is stored verbatim. -/
theorem C10_no_status_validation :
    (∀ (now_ms : Int) (now_iso : String) (d : TaskRecord),
      (Task.from_dict now_ms now_iso d).status = d.status)
    ∧ (∀ (now_ms : Int) (now_iso : String) (title description status : String)
        (task_id : Option Int),
      (Task.init now_ms now_iso title description status task_id).status
        = status) := by
  exact ⟨fun _ _ _ => rfl, fun _ _ _ _ _ _ => rfl⟩

/-- Claim C8: get_task_by_id coerces the textual id with int and returns
    the first task carrying that integer id; when the coercion fails the
    result is none (the ValueError is caught), and the manager state is
    untouched, the lookup being a pure function of it. -/
theorem C8_get_task_by_id (pm : ProjectManager) (s : String) :
    (py_int s = none → pm.get_task_by_id s = none)
    ∧ (∀ n : Int, py_int s = some n →
        pm.get_task_by_id s = pm.tasks.find? (fun t => t.id == n)) := by
  constructor
  · intro h
    simp [ProjectManager.get_task_by_id, h]
  · intro n h
    simp [ProjectManager.get_task_by_id, h]

/-- Witness for C8 at concrete inputs: a non-numeric id text yields none
    and a numeric one finds the task with that id. -/
theorem C8_get_task_by_id_witness :
    (ProjectManager.get_task_by_id
        ⟨[Task.init 0 "t0" "Fix" "bug"], 0⟩ "abc" = none)
    ∧ (ProjectManager.get_task_by_id
        ⟨[Task.init 7 "t0" "Fix" "bug" "To Do" (some 7)], 0⟩ "7"
        = some (Task.init 7 "t0" "Fix" "bug" "To Do" (some 7))) := by
  constructor
  · exact (C8_get_task_by_id ⟨[Task.init 0 "t0" "Fix" "bug"], 0⟩ "abc").1
      (by decide)
  · exact ((C8_get_task_by_id
      ⟨[Task.init 7 "t0" "Fix" "bug" "To Do" (some 7)], 0⟩ "7").2 7
      (by decide)).trans (by decide)

/-- Claim C5: constructing a ProjectManager loads the backing file: a
    decodable file reconstructs the full task list from its stored
    records, a malformed file gives the empty list with a warning, an
    absent file gives the empty list with no error; no case writes the
    file. -/
theorem C5_construction_load (now_ms : Int) (now_iso : String)
    (file : FileState) :
    (∀ tf, file = FileState.valid tf →
      ProjectManager.init now_ms now_iso file =
        (⟨(tf.getD []).map (Task.from_dict now_ms now_iso), 0⟩,
         LoadOutcome.loaded))
    ∧ (file = FileState.malformed →
      ProjectManager.init now_ms now_iso file =
        (⟨[], 0⟩, LoadOutcome.warnedMalformed))
    ∧ (file = FileState.absent →
      ProjectManager.init now_ms now_iso file =
        (⟨[], 0⟩, LoadOutcome.startedFresh)) := by
  refine ⟨?_, ?_, ?_⟩
  · rintro tf rfl
    rfl
  · rintro rfl
    rfl
  · rintro rfl
    rfl

/-- Witness for C5 at concrete inputs: a valid one-record file loads the
    decoded record, a malformed file starts empty with the warning, an
    absent file starts empty and fresh. -/
theorem C5_construction_load_witness :
    (ProjectManager.init 0 "t1"
        (FileState.valid (some [⟨3, "A", "d", "Done", "t0"⟩])) =
      (⟨[⟨3, "A", "d", "Done", "t0"⟩], 0⟩, LoadOutcome.loaded))
    ∧ (ProjectManager.init 0 "t1" FileState.malformed =
      (⟨[], 0⟩, LoadOutcome.warnedMalformed))
    ∧ (ProjectManager.init 0 "t1" FileState.absent =
      (⟨[], 0⟩, LoadOutcome.startedFresh)) := by
  refine ⟨?_, ?_, ?_⟩
  · exact ((C5_construction_load 0 "t1"
      (FileState.valid (some [⟨3, "A", "d", "Done", "t0"⟩]))).1
      (some [⟨3, "A", "d", "Done", "t0"⟩]) rfl).trans (by decide)
  · exact (C5_construction_load 0 "t1" FileState.malformed).2.1 rfl
  · exact (C5_construction_load 0 "t1" FileState.absent).2.2 rfl

/-- Claim C3: update_task_status mutates the found task and rewrites the
    backing file exactly when the id resolves, the status is one of the
    three fixed ones and differs from the current one; an equal status
    reports no change without a write; an invalid status or a missing id
    reports the error and leaves the whole state, task list and file
    write count alike, unchanged. -/
theorem C3_update_task_status (pm : ProjectManager)
    (task_id new_status : String) :
    (pm.get_task_by_id task_id = none →
      pm.update_task_status task_id new_status = (pm, UpdateOutcome.notFound))
    ∧ (∀ t, pm.get_task_by_id task_id = some t → new_status ∉ STATUSES →
      pm.update_task_status task_id new_status = (pm, UpdateOutcome.invalidStatus))
    ∧ (∀ t, pm.get_task_by_id task_id = some t → new_status ∈ STATUSES →
      t.status = new_status →
      pm.update_task_status task_id new_status = (pm, UpdateOutcome.noChange))
    ∧ (∀ t, pm.get_task_by_id task_id = some t → new_status ∈ STATUSES →
      t.status ≠ new_status →
      pm.update_task_status task_id new_status =
        (⟨set_status_first t.id new_status pm.tasks, pm.file_writes + 1⟩,
         UpdateOutcome.updated)) := by
  refine ⟨?_, ?_, ?_, ?_⟩
  · intro h
    simp [ProjectManager.update_task_status, h]
  · intro t ht hs
    simp [ProjectManager.update_task_status, ht, hs]
  · intro t ht hs heq
    simp [ProjectManager.update_task_status, ht, hs, heq]
  · intro t ht hs hne
    simp [ProjectManager.update_task_status, ht, hs, hne,
      ProjectManager.save_data]

/-- Witness for C3 at concrete inputs, one per branch: a valid different
    status mutates the single task and bumps the write count; the same
    status, a bogus status and a missing id all leave the state equal to
    the prior one. -/
theorem C3_update_task_status_witness :
    (ProjectManager.update_task_status
        ⟨[Task.init 0 "t0" "A" "d" "To Do" (some 5)], 1⟩ "5" "Done" =
      (⟨[Task.init 0 "t0" "A" "d" "Done" (some 5)], 2⟩, UpdateOutcome.updated))
    ∧ (ProjectManager.update_task_status
        ⟨[Task.init 0 "t0" "A" "d" "To Do" (some 5)], 1⟩ "5" "To Do" =
      (⟨[Task.init 0 "t0" "A" "d" "To Do" (some 5)], 1⟩, UpdateOutcome.noChange))
    ∧ (ProjectManager.update_task_status
        ⟨[Task.init 0 "t0" "A" "d" "To Do" (some 5)], 1⟩ "5" "Bogus" =
      (⟨[Task.init 0 "t0" "A" "d" "To Do" (some 5)], 1⟩, UpdateOutcome.invalidStatus))
    ∧ (ProjectManager.update_task_status
        ⟨[Task.init 0 "t0" "A" "d" "To Do" (some 5)], 1⟩ "9" "Done" =
      (⟨[Task.init 0 "t0" "A" "d" "To Do" (some 5)], 1⟩, UpdateOutcome.notFound)) := by
  refine ⟨?_, ?_, ?_, ?_⟩
  · exact (((C3_update_task_status
      ⟨[Task.init 0 "t0" "A" "d" "To Do" (some 5)], 1⟩ "5" "Done").2.2.2
      (Task.init 0 "t0" "A" "d" "To Do" (some 5)) (by decide) (by decide)
      (by decide)).trans (by decide))
  · exact ((C3_update_task_status
      ⟨[Task.init 0 "t0" "A" "d" "To Do" (some 5)], 1⟩ "5" "To Do").2.2.1
      (Task.init 0 "t0" "A" "d" "To Do" (some 5)) (by decide) (by decide)
      (by decide))
  · exact ((C3_update_task_status
      ⟨[Task.init 0 "t0" "A" "d" "To Do" (some 5)], 1⟩ "5" "Bogus").2.1
      (Task.init 0 "t0" "A" "d" "To Do" (some 5)) (by decide) (by decide))
  · exact ((C3_update_task_status
      ⟨[Task.init 0 "t0" "A" "d" "To Do" (some 5)], 1⟩ "9" "Done").1
      (by decide))

end Persistent

end Agile
